import Mathlib

/-!
# Verification of the cto-bizlogic-helper ingestion and ETL pipeline

Shallow embedding of the chunked ingestion pipeline of the
`cto-bizlogic-helper` service (`reference_data.go`, `process_opportunity.go`,
`process_account.go`, `process_identity.go`) together with its record
transform rules, and proofs about it.

Modelling conventions:
* Go strings are modelled as Lean `String` (`List Char` under the hood);
  all inputs of interest are ASCII, so Go's byte positions coincide with
  character positions.
* `float64` amounts are modelled as exact rationals (`ℚ`).  The inputs the
  loaders see are short decimal literals, which `strconv.ParseFloat`
  represents exactly, so no rounding is lost at the sizes considered here.
* The database is modelled as explicit state; statements executed inside a
  transaction are buffered as a list of operations and take effect only at
  commit, which is exactly the visibility the code relies on via
  `tx.Begin` / deferred `tx.Rollback` / `tx.Commit`.  Environmental
  failures (connection loss, SQL engine errors, file-system errors on
  writes) are outside the model; decode errors, which are deterministic
  functions of the file bytes, are modelled exactly.
* Go's `encoding/json` streaming decoder is modelled for the fragment the
  loaders exercise: `Token` on delimiters and strings, `More`, and
  `Decode` of a flat object with string-typed members into a struct
  (unknown keys ignored, later duplicates win, a comma required between
  successive array elements).  String escapes and non-string member values
  make the model decoder fail where Go may succeed; every file appearing
  in a theorem below stays inside the common fragment.
-/

set_option maxRecDepth 4000

/-! ## Small string helpers shared by the loaders -/

/-- Whitespace characters skipped by Go's `encoding/json` scanner. -/
def jsonWs (c : Char) : Bool :=
  c == ' ' || c == '\t' || c == '\n' || c == '\r'

/-- Drop leading JSON whitespace. -/
def skipWs (s : List Char) : List Char := s.dropWhile jsonWs

/-- Whether `sub` is a prefix of `s` (over character lists). -/
def isPrefixCL : List Char → List Char → Bool
  | [], _ => true
  | _ :: _, [] => false
  | a :: as, b :: bs => a == b && isPrefixCL as bs

/-- Whether `sub` occurs somewhere inside `s` (over character lists). -/
def isInfixCL (sub : List Char) : List Char → Bool
  | [] => sub.isEmpty
  | c :: rest => isPrefixCL sub (c :: rest) || isInfixCL sub rest

/-- Model of `strings.Contains(s, sub)`: `sub` occurs as a substring of `s`. -/
def goContains (s sub : String) : Bool := isInfixCL sub.data s.data

/-- Split a character list at every occurrence of `sep`; like Go's
`strings.Split` with a one-character separator, the result always has one
part more than there are separators (`[""]` for the empty string). -/
def splitOnCL (sep : Char) : List Char → List (List Char)
  | [] => [[]]
  | c :: rest =>
    match splitOnCL sep rest with
    | [] => [[]]
    | g :: gs => if c == sep then [] :: g :: gs else (c :: g) :: gs

/-- Model of `strings.Split(s, sep)` for the one-character separators the source
uses. -/
def goSplit (s : String) (sep : Char) : List String :=
  (splitOnCL sep s.data).map List.asString

/-- Join strings with a separator (the inverse used when rebuilding the
right-hand part of `SplitAfterN`). -/
def joinWith (sep : String) : List String → String
  | [] => ""
  | [x] => x
  | x :: xs => x ++ sep ++ joinWith sep xs

/-- Model of `strings.TrimSpace` (the feeds are ASCII, so ASCII whitespace). -/
def trimGo (s : String) : String :=
  (((s.data.dropWhile Char.isWhitespace).reverse.dropWhile Char.isWhitespace).reverse).asString

/-- Remove the final character (Go's `s[0 : len(s)-1]` on a non-empty
string). -/
def dropLastStr (s : String) : String := s.data.dropLast.asString

/-- Apply a character replacement over a whole string. -/
def mapChars (f : Char → Char) (s : String) : String := (s.data.map f).asString

/-- Model of `strings.TrimSuffix(s, "T")`. -/
def trimSuffixT (s : String) : String :=
  if s.data.getLast? == some 'T' then dropLastStr s else s

/-- Model of `strings.TrimSuffix(strings.Split(s, "T")[0], "T")` — the date-truncation
idiom used on every timestamp field. -/
def truncT (s : String) : String := trimSuffixT ((goSplit s 'T').headD "")

/-- Model of `strings.TrimRight(s, " ")`: drop trailing space characters. -/
def trimRightSpace (s : String) : String :=
  ((s.data.reverse.dropWhile (· == ' ')).reverse).asString

/-- Model of `strings.SplitAfterN(s, " ", 2)`: split after the first space, keeping the
separator with the left part.  Go panics when the caller indexes element 1 of a
one-element result; the model totalises that access with `getD` instead. -/
def splitAfterN2 (s : String) : List String :=
  match goSplit s ' ' with
  | [] => [""]
  | [x] => [x]
  | x :: xs => [x ++ " ", joinWith " " xs]

/-! ## Numeric parsing (`strconv`)

`strconv.ParseFloat(s, 64)` / `strconv.ParseInt(s, 10, 64)` return a value
*and* an error; all loader call-sites discard the error, so the functions
below model the value actually used: `0` on a syntax error, and for
`ParseInt` the clamped extremum on a range error.  The decimal fragment is
modelled (no `Inf`/`NaN`/hex literals, which never appear in the feeds). -/

/-- Value of a digit string. -/
def digitsVal (l : List Char) : Nat :=
  l.foldl (fun a c => a * 10 + (c.toNat - 48)) 0

/-- Parse an optional sign, returning the sign as `1` or `-1`. -/
def parseSign : List Char → Int × List Char
  | '+' :: r => (1, r)
  | '-' :: r => (-1, r)
  | r => (1, r)

/-- Exponent part of a float literal: sign and at least one digit, consuming
the whole rest of the input. -/
def parseGoFloatExp (base : ℚ) (r : List Char) : Option ℚ :=
  let (esign, r4) := parseSign r
  let ed := r4.takeWhile Char.isDigit
  if ed.isEmpty || !(r4.dropWhile Char.isDigit).isEmpty then none
  else if esign == 1 then some (base * (10 : ℚ) ^ digitsVal ed)
  else some (base / (10 : ℚ) ^ digitsVal ed)

/-- Decimal fragment of `strconv.ParseFloat`, as an exact rational; `none` on
any syntax error (Go then returns value `0` with an error, which the loaders
discard). -/
def parseGoFloat (s : String) : Option ℚ :=
  let (sign, r0) := parseSign s.data
  let ip := r0.takeWhile Char.isDigit
  let r1 := r0.dropWhile Char.isDigit
  let fp :=
    match r1 with
    | '.' :: r => r.takeWhile Char.isDigit
    | _ => []
  let r2 :=
    match r1 with
    | '.' :: r => r.dropWhile Char.isDigit
    | _ => r1
  if ip.isEmpty && fp.isEmpty then none
  else
    let mant : ℚ := (digitsVal ip : ℚ) + (digitsVal fp : ℚ) / ((10 : ℚ) ^ fp.length)
    let base : ℚ := (sign : ℚ) * mant
    match r2 with
    | [] => some base
    | 'e' :: r3 => parseGoFloatExp base r3
    | 'E' :: r3 => parseGoFloatExp base r3
    | _ => none

/-- The `float64` value the loaders actually use after
`v, _ := strconv.ParseFloat(s, 64)`: the parse result, or `0` on error. -/
def goParseFloatEff (s : String) : ℚ := (parseGoFloat s).getD 0

/-- Decimal fragment of `strconv.ParseInt(s, 10, 64)` as used by the loaders:
syntax errors yield `0`; out-of-range values are clamped to the `int64`
extrema, exactly the value Go returns alongside the (discarded) range error. -/
def goParseIntEff (s : String) : Int :=
  let (sign, r) := parseSign s.data
  if r.isEmpty || !(r.all Char.isDigit) then 0
  else
    let v : Int := sign * (digitsVal r : Int)
    if v > (2 ^ 63 - 1 : Int) then 2 ^ 63 - 1
    else if v < (-(2 ^ 63) : Int) then -(2 ^ 63)
    else v

/-! ## Streaming JSON decoder fragment (`encoding/json`) -/

/-- A token returned by `json.Decoder.Token` in the fragment modelled. -/
inductive GoTok where
  | delim (c : Char)
  | str (v : String)
deriving DecidableEq

/-- Scan the body of a JSON string literal up to its closing quote; escapes
are outside the modelled fragment and fail. -/
def scanStringLit : List Char → List Char → Option (String × List Char)
  | [], _ => none
  | '"' :: r, acc => some (acc.reverse.asString, r)
  | '\\' :: _, _ => none
  | c :: r, acc => scanStringLit r (c :: acc)

/-- Parse a JSON string literal starting at `'"'`. -/
def parseStringLit : List Char → Option (String × List Char)
  | '"' :: rest => scanStringLit rest []
  | _ => none

/-- Model of `json.Decoder.Token` for the delimiters and strings the loaders meet. -/
def goToken (s : List Char) : Option (GoTok × List Char) :=
  match skipWs s with
  | [] => none
  | c :: rest =>
    if c == '[' || c == ']' || c == '\x7b' || c == '\x7d' then
      some (.delim c, rest)
    else if c == '"' then
      (parseStringLit (c :: rest)).map (fun p => (.str p.1, p.2))
    else none

/-- Model of `json.Decoder.More`: a further array/object element is pending. -/
def goMore (s : List Char) : Bool :=
  match skipWs s with
  | [] => false
  | c :: _ => !(c == ']' || c == '\x7d')

/-- Members of a flat JSON object, folded into a record through `assign`
(which ignores unknown keys, as Go's decoder does).  Only string-typed member
values are in the modelled fragment.  Fuel bounds the recursion; callers pass
one more than the remaining input length, which a successful Go parse can
never exhaust since every member consumes input. -/
def parseFields {α : Type} (assign : α → String → String → α) :
    Nat → α → List Char → Option (α × List Char)
  | 0, _, _ => none
  | fuel + 1, a, s =>
    match parseStringLit (skipWs s) with
    | none => none
    | some (k, s1) =>
      match skipWs s1 with
      | ':' :: s2 =>
        match parseStringLit (skipWs s2) with
        | none => none
        | some (v, s3) =>
          match skipWs s3 with
          | ',' :: s4 => parseFields assign fuel (assign a k v) s4
          | '\x7d' :: s4 => some (assign a k v, s4)
          | _ => none
      | _ => none

/-- Model of `json.Decoder.Decode` of one flat object into a record built by `assign`
starting from the zero record `a0`. -/
def parseGoObject {α : Type} (assign : α → String → String → α) (a0 : α)
    (s : List Char) : Option (α × List Char) :=
  match skipWs s with
  | '\x7b' :: s1 =>
    match skipWs s1 with
    | '\x7d' :: s2 => some (a0, s2)
    | _ => parseFields assign (s1.length + 1) a0 s1
  | _ => none

/-- One `Decode` call inside the loaders' `for decoder.More()` loop: between
successive array elements the decoder first consumes the separating comma
(`tokenPrepareForDecode`), then parses the value. -/
def decodeGoElem {α : Type} (assign : α → String → String → α) (a0 : α)
    (isFirst : Bool) (s : List Char) : Option (α × List Char) :=
  if isFirst then parseGoObject assign a0 s
  else
    match skipWs s with
    | ',' :: s1 => parseGoObject assign a0 s1
    | _ => none

/-- Outcome of the record-decoding loop shared by the three loaders. -/
inductive GoLoopOut (α : Type) where
  | done (recs : List α) (rest : List Char)
  | fail (n : Nat)
deriving DecidableEq

/-- The loaders' record loop: while `More`, decode the next element; a decode
failure reports the 1-based ordinal of the failing record.  Fuel exhaustion is
folded into the failure case; callers pass `length + 1`, which a run of
successful decodes (each consuming input) cannot exhaust. -/
def goDecodeLoop {α : Type} (assign : α → String → String → α) (a0 : α) :
    Nat → List Char → Bool → Nat → List α → GoLoopOut α
  | 0, _, _, n, _ => .fail n
  | fuel + 1, s, isFirst, n, acc =>
    if goMore s then
      match decodeGoElem assign a0 isFirst s with
      | none => .fail n
      | some (r, s') => goDecodeLoop assign a0 fuel s' false (n + 1) (acc ++ [r])
    else .done acc s

/-- Outcome of parsing a whole `<type>.json` chunk file the way all three
loaders do: seek past 10 bytes, consume the opening array token, decode
records one by one, consume the closing token. -/
inductive GoParse (α : Type) where
  | openTokErr
  | decodeErr (n : Nat)
  | closeTokErr (recs : List α)
  | ok (recs : List α)
deriving DecidableEq

/-- The shared file-reading skeleton of `processIdentity`,
`processOpportunity` and `processAccount`: `file.Seek(10, io.SeekStart)` (the
comment in the source says this advances past `\x7b"items":`, which is 9
bytes, so the tenth byte consumed is whatever follows the colon), then
`decoder.Token()`, then the `decoder.More()` loop, then the closing
`decoder.Token()`. -/
def parseItemsFile {α : Type} (assign : α → String → String → α) (a0 : α)
    (file : String) : GoParse α :=
  let s := file.data.drop 10
  match goToken s with
  | none => .openTokErr
  | some (_, s1) =>
    match goDecodeLoop assign a0 (s1.length + 1) s1 true 1 [] with
    | .fail n => .decodeErr n
    | .done recs rest =>
      match goToken rest with
      | none => .closeTokErr recs
      | some _ => .ok recs

/-! ## Account loader (`process_account.go`) -/

/-- Sentinel for accounts collapsed out of the load (`const paygo = "PAYGO"`). -/
def paygo : String := "PAYGO"

/-- Embedding of `collapseBusinessSegment`: collapse a multi-segment business-segment
string to a single canonical category by case-sensitive substring match, in
the source's descending priority order; `"NAC HQ"` exactly maps to the PAYGO
sentinel, and an unmatched string yields `""`. -/
def collapseBusinessSegment (businessSegment : String) : String :=
  if businessSegment == "NAC HQ" then paygo
  else if goContains businessSegment "Key Accounts" then "Key Account"
  else if goContains businessSegment "Enterprise" then "Enterprise"
  else if goContains businessSegment "Midmarket" then "Mid-Market"
  else if goContains businessSegment "SMB" then "SMB"
  else if goContains businessSegment "ISV" then "ISV"
  else if goContains businessSegment "Public Sector" then "Public Sector"
  else ""

/-- The substring/category priority list of the collapse, highest first. -/
def segmentPriority : List (String × String) :=
  [("Key Accounts", "Key Account"), ("Enterprise", "Enterprise"),
   ("Midmarket", "Mid-Market"), ("SMB", "SMB"), ("ISV", "ISV"),
   ("Public Sector", "Public Sector")]

/-- Modelled from the spec: the business-segment collapse as the spec words
it — first match wins against a fixed priority list, `"NAC HQ"` maps to the
PAYGO sentinel — with the unmatched default left as the collapse's actual
default, for comparison with `collapseBusinessSegment`. -/
def collapseBusinessSegmentSpec (s : String) : String :=
  if s == "NAC HQ" then paygo
  else
    match segmentPriority.find? (fun p => goContains s p.1) with
    | some p => p.2
    | none => ""

/-- Embedding of `tokenizeSeList`: split a `name - role, name - role, ...` resource list on
commas, each entry on dashes, keep exactly-two-part entries as
`name-role` with ends trimmed, drop the rest, and return `""` for empty or
literal-`"null"` input. -/
def tokenizeSeList (resourceList : String) : String :=
  if resourceList.length < 1 || resourceList == "null" then ""
  else
    let cleanList := (goSplit resourceList ',').foldl
      (fun cleanList person =>
        match goSplit person '-' with
        | [a, b] => cleanList ++ trimGo a ++ "-" ++ trimGo b ++ ","
        | _ => cleanList) ""
    if cleanList.length > 1 then dropLastStr cleanList else cleanList

/-- Record `AccountLookup`: an account record from the corporate feed. -/
structure AccountLookup where
  CimID : String := ""
  CimParentID : String := ""
  CimIDReg : String := ""
  AccountName : String := ""
  BusinessSegment : String := ""
  EndUserRegistryID : String := ""
  GlobalRegistryID : String := ""
  RegistryIDList : String := ""
  NacSeTeam : String := ""
  NatSeTeam : String := ""
deriving DecidableEq

/-- JSON tag → field assignment for `AccountLookup` decoding. -/
def assignAccountField (a : AccountLookup) (k v : String) : AccountLookup :=
  if k == "cim_id" then { a with CimID := v }
  else if k == "cim_id_parent" then { a with CimParentID := v }
  else if k == "cim_id_reg" then { a with CimIDReg := v }
  else if k == "account_name" then { a with AccountName := v }
  else if k == "bus_segment_str" then { a with BusinessSegment := v }
  else if k == "end_user_registry_id" then { a with EndUserRegistryID := v }
  else if k == "end_user_orcl_glb_ult_reg_id" then { a with GlobalRegistryID := v }
  else if k == "end_user_registry_id_str" then { a with RegistryIDList := v }
  else if k == "nac_SE_Team" then { a with NacSeTeam := v }
  else if k == "nat_SE_Team" then { a with NatSeTeam := v }
  else a

/-- The per-record data adjustments of `processAccount` (lines 120–122). -/
def transformAccount (a : AccountLookup) : AccountLookup :=
  { a with
    NacSeTeam := tokenizeSeList a.NacSeTeam
    NatSeTeam := tokenizeSeList a.NatSeTeam
    BusinessSegment := collapseBusinessSegment a.BusinessSegment }

/-- The staging gate of `processAccount`: insert unless the collapsed segment
is the PAYGO sentinel. -/
def accountGate (a : AccountLookup) : Bool := !(a.BusinessSegment == paygo)

/-- One row of the `LookupAccount` staging table, column names as in the
insert statement of `processAccount`. -/
structure LookupAccountRow where
  id : Nat := 0
  cimId : String := ""
  cimParentId : String := ""
  accountName : String := ""
  businessSegment : String := ""
  endUserRegistryId : String := ""
  globalRegistryId : String := ""
  registryIdList : String := ""
  nacSeTeam : String := ""
  natSeTeam : String := ""
  cimIdReg : String := ""
deriving DecidableEq

/-- The staging row inserted for one (already transformed) account record. -/
def mkAccountRow (c : Nat) (a : AccountLookup) : LookupAccountRow :=
  { id := c, cimId := a.CimID, cimParentId := a.CimParentID,
    accountName := a.AccountName, businessSegment := a.BusinessSegment,
    endUserRegistryId := a.EndUserRegistryID,
    globalRegistryId := a.GlobalRegistryID, registryIdList := a.RegistryIDList,
    nacSeTeam := a.NacSeTeam, natSeTeam := a.NatSeTeam, cimIdReg := a.CimIDReg }

/-- Staging rows produced by the account loop from position `c` on: each
record is adjusted, then inserted exactly when the PAYGO gate admits it. -/
def accountRowsOf : Nat → List AccountLookup → List LookupAccountRow
  | _, [] => []
  | c, a :: rest =>
    let t := transformAccount a
    (if accountGate t then [mkAccountRow c t] else []) ++ accountRowsOf (c + 1) rest

/-- Database state touched by the account loader. -/
structure AccountDB where
  lookupAccount : List LookupAccountRow := []
deriving DecidableEq

/-- Run outcome of `processAccount`. -/
inductive AccErr where
  | schemaInvalid
  | openTokErr
  | decodeErr (n : Nat)
  | closeTokErr
deriving DecidableEq

/-- Result of one `processAccount` run. -/
structure AccountRunResult where
  db : AccountDB
  err : Option AccErr
deriving DecidableEq

/-- Embedding of `processAccount`: stream the chunk file inside one transaction that first
clears `LookupAccount`; the transaction's effects become visible only at
commit, so every abort leaves the database exactly as it was. -/
def processAccount (schema : String) (file : String) (db : AccountDB) :
    AccountRunResult :=
  if schema.length < 1 then ⟨db, some .schemaInvalid⟩
  else
    match parseItemsFile assignAccountField {} file with
    | .openTokErr => ⟨db, some .openTokErr⟩
    | .decodeErr n => ⟨db, some (.decodeErr n)⟩
    | .closeTokErr _ => ⟨db, some .closeTokErr⟩
    | .ok recs => ⟨{ lookupAccount := accountRowsOf 1 recs }, none⟩

/-! ## Opportunity loader (`process_opportunity.go`) -/

/-- Record `OpportunityLookup`: one sales-opportunity record from the Aria export
feed, all members string-typed. -/
structure OpportunityLookup where
  OppID : String := ""
  OppName : String := ""
  OppOwner : String := ""
  TerritoryOwner : String := ""
  OppStatus : String := ""
  CloseDate : String := ""
  CustomerName : String := ""
  WinProbability : String := ""
  IntegrationID : String := ""
  RegistryID : String := ""
  CimID : String := ""
  OpportunityValue : String := ""
  ForecastTypeGroup : String := ""
  RevenueLineID : String := ""
  RevenueType : String := ""
  RevenueTypeGroup : String := ""
  RevenueLineStatus : String := ""
  RevenueSalesStage : String := ""
  RevenuePipelineK : String := ""
  RevenueTCVK : String := ""
  RevenueProbability : String := ""
  ProductClass : String := ""
  ProductPillar : String := ""
  ProductLine : String := ""
  ProductGroup : String := ""
  ProductName : String := ""
  ProductDescription : String := ""
  WorkloadAmount : String := ""
  ConsumptionStartDate : String := ""
  ConsumptionRampMonths : String := ""
  L2TerritoryName : String := ""
  L3TerritoryName : String := ""
  L2TerritoryEmail : String := ""
  L3TerritoryEmail : String := ""
deriving DecidableEq

/-- JSON tag → field assignment for `OpportunityLookup` decoding. -/
def assignOppField (o : OpportunityLookup) (k v : String) : OpportunityLookup :=
  if k == "opportunity_id" then { o with OppID := v }
  else if k == "opportunity_name" then { o with OppName := v }
  else if k == "opportunity_owner" then { o with OppOwner := v }
  else if k == "territory_owner" then { o with TerritoryOwner := v }
  else if k == "opportunity_status" then { o with OppStatus := v }
  else if k == "close_date" then { o with CloseDate := v }
  else if k == "customer_name" then { o with CustomerName := v }
  else if k == "opp_probability" then { o with WinProbability := v }
  else if k == "opty_int_id" then { o with IntegrationID := v }
  else if k == "registry_id" then { o with RegistryID := v }
  else if k == "cim_id" then { o with CimID := v }
  else if k == "oppty_amount_k" then { o with OpportunityValue := v }
  else if k == "forecast_type_group" then { o with ForecastTypeGroup := v }
  else if k == "revenue_line_id" then { o with RevenueLineID := v }
  else if k == "revenue_type" then { o with RevenueType := v }
  else if k == "revenue_type_group" then { o with RevenueTypeGroup := v }
  else if k == "revenue_line_status" then { o with RevenueLineStatus := v }
  else if k == "rev_sales_stage" then { o with RevenueSalesStage := v }
  else if k == "rev_pipeline_k" then { o with RevenuePipelineK := v }
  else if k == "rev_tcv_k" then { o with RevenueTCVK := v }
  else if k == "rev_probability" then { o with RevenueProbability := v }
  else if k == "product_class" then { o with ProductClass := v }
  else if k == "product_pillar" then { o with ProductPillar := v }
  else if k == "product_line" then { o with ProductLine := v }
  else if k == "product_group" then { o with ProductGroup := v }
  else if k == "product_name" then { o with ProductName := v }
  else if k == "product_description" then { o with ProductDescription := v }
  else if k == "opp_total_workload_k" then { o with WorkloadAmount := v }
  else if k == "consumption_start_date" then { o with ConsumptionStartDate := v }
  else if k == "cons_ramp_months" then { o with ConsumptionRampMonths := v }
  else if k == "level_2_territory_name" then { o with L2TerritoryName := v }
  else if k == "level_3_territory_name" then { o with L3TerritoryName := v }
  else if k == "level_2_territory_owner_email" then { o with L2TerritoryEmail := v }
  else if k == "level_3_territory_owner_email" then { o with L3TerritoryEmail := v }
  else o

/-- The staging gate: only records in `Open` or `Won` state are inserted into
`LookupOpportunity` (line 207 of the source). -/
def oppStatusGate (r : OpportunityLookup) : Bool :=
  r.OppStatus == "Open" || r.OppStatus == "Won"

/-- One row of the `LookupOpportunity` staging table, column names as in the
insert statement; the bookkeeping columns filled with constants by the SQL
text are omitted. -/
structure LookupRow where
  id : Nat := 0
  opportunityid : String := ""
  summary : String := ""
  salesrep : String := ""
  projectedarr : ℚ := 0
  anticipatedclosedate : String := ""
  winprobability : Int := 0
  projectedtcv : ℚ := 0
  integrationid : String := ""
  registryid : String := ""
  cimid : String := ""
  opportunitystatus : String := ""
  customername : String := ""
  territoryowner : String := ""
  opportunityvalue : ℚ := 0
  forecasttypegroup : String := ""
  revenuelineid : String := ""
  revenuetype : String := ""
  revenuetypegroup : String := ""
  revenuelinestatus : String := ""
  revenuesalesstage : String := ""
  revenuepipelinek : ℚ := 0
  revenuetcvk : ℚ := 0
  revenueprobability : Int := 0
  productclass : String := ""
  productpillar : String := ""
  productline : String := ""
  productgroup : String := ""
  productname : String := ""
  productdescription : String := ""
  workloadamount : ℚ := 0
  consumptionstartdate : String := ""
  consumptionrampmonths : ℚ := 0
  l2territoryname : String := ""
  l3territoryname : String := ""
  l2territoryemail : String := ""
  l3territoryemail : String := ""
deriving DecidableEq

/-- The staging row built for one decoded record, mirroring lines 178–213 of
`process_opportunity.go`: the numeric conversions (errors discarded), the
timestamp truncations, the owner / probability / description fallbacks, the
underscore fix-up, and the parameter-to-column binding of the insert — note
`tcv` and `arr` are the literal zero locals of the source, and the
`RevenueProbability` string is bound to the `revenuesalesstage` column while
the fixed-up integer probability is bound to `revenueprobability`, exactly as
the placeholders pair up in the SQL text. -/
def mkRow (c : Nat) (r : OpportunityLookup) : LookupRow :=
  let tcv : ℚ := 0
  let arr : ℚ := 0
  let opportunityValue := goParseFloatEff r.OpportunityValue
  let revenuePipelineK := goParseFloatEff r.RevenuePipelineK
  let revenueTCVK := goParseFloatEff r.RevenueTCVK
  let workloadAmount := goParseFloatEff r.WorkloadAmount
  let consumptionRampMonths := goParseFloatEff r.ConsumptionRampMonths
  let winProbability := goParseIntEff r.WinProbability
  let workloadProbability0 := goParseIntEff r.RevenueProbability
  let closeDate := truncT r.CloseDate
  let consumptionStartDate := truncT r.ConsumptionStartDate
  let oppOwner := if r.OppOwner.length < 1 then r.TerritoryOwner else r.OppOwner
  let workloadProbability :=
    if workloadProbability0 == 0 then winProbability else workloadProbability0
  let productDescription :=
    if r.ProductDescription.length < 1 then "Unspecified" else r.ProductDescription
  let oppName := mapChars (fun c => if c == '_' then ' ' else c) r.OppName
  { id := c, opportunityid := r.OppID, summary := oppName, salesrep := oppOwner,
    projectedarr := arr * 1000, anticipatedclosedate := closeDate,
    winprobability := winProbability, projectedtcv := tcv * 1000,
    integrationid := r.IntegrationID, registryid := r.RegistryID,
    cimid := r.CimID, opportunitystatus := r.OppStatus,
    customername := r.CustomerName, territoryowner := r.TerritoryOwner,
    opportunityvalue := opportunityValue * 1000,
    forecasttypegroup := r.ForecastTypeGroup, revenuelineid := r.RevenueLineID,
    revenuetype := r.RevenueType, revenuetypegroup := r.RevenueTypeGroup,
    revenuelinestatus := r.RevenueLineStatus,
    revenuesalesstage := r.RevenueProbability,
    revenuepipelinek := revenuePipelineK * 1000,
    revenuetcvk := revenueTCVK * 1000,
    revenueprobability := workloadProbability, productclass := r.ProductClass,
    productpillar := r.ProductPillar, productline := r.ProductLine,
    productgroup := r.ProductGroup, productname := r.ProductName,
    productdescription := productDescription,
    workloadamount := workloadAmount * 1000,
    consumptionstartdate := consumptionStartDate,
    consumptionrampmonths := consumptionRampMonths,
    l2territoryname := r.L2TerritoryName, l3territoryname := r.L3TerritoryName,
    l2territoryemail := r.L2TerritoryEmail, l3territoryemail := r.L3TerritoryEmail }

/-- The unconditional `UPDATE Opportunity` parameters (lines 225, statement of
lines 132–137): keyed by opportunity id and revenue-line (workload)
identifier. -/
structure OppUpdate where
  summary : String := ""
  salesRep : String := ""
  projectedARR : ℚ := 0
  projectedTCV : ℚ := 0
  opportunityStatus : String := ""
  anticipatedCloseDate : String := ""
  winProbability : Int := 0
  opportunityid : String := ""
  workloadidentifier : String := ""
deriving DecidableEq

/-- The `UPDATE Opportunity` executed for every record regardless of status:
its parameter bindings from the transformed record. -/
def mkOppUpdate (r : OpportunityLookup) : OppUpdate :=
  let opportunityValue := goParseFloatEff r.OpportunityValue
  let revenuePipelineK := goParseFloatEff r.RevenuePipelineK
  let winProbability := goParseIntEff r.WinProbability
  let closeDate := truncT r.CloseDate
  let oppOwner := if r.OppOwner.length < 1 then r.TerritoryOwner else r.OppOwner
  let oppName := mapChars (fun c => if c == '_' then ' ' else c) r.OppName
  { summary := oppName, salesRep := oppOwner,
    projectedARR := revenuePipelineK * 1000,
    projectedTCV := opportunityValue * 1000,
    opportunityStatus := r.OppStatus, anticipatedCloseDate := closeDate,
    winProbability := winProbability, opportunityid := r.OppID,
    workloadidentifier := r.RevenueLineID }

/-- The unconditional `UPDATE OpportunityWorkload` parameters (line 234,
statement of lines 144–148). -/
structure WorkloadUpdate where
  workloadDescription : String := ""
  consumptionStartDate : String := ""
  consumptionRampMonths : ℚ := 0
  workloadType : String := ""
  opportunityid : String := ""
  workloadidentifier : String := ""
deriving DecidableEq

/-- The `UPDATE OpportunityWorkload` executed for every record. -/
def mkWorkloadUpdate (r : OpportunityLookup) : WorkloadUpdate :=
  let consumptionRampMonths := goParseFloatEff r.ConsumptionRampMonths
  let consumptionStartDate := truncT r.ConsumptionStartDate
  let productDescription :=
    if r.ProductDescription.length < 1 then "Unspecified" else r.ProductDescription
  { workloadDescription := productDescription,
    consumptionStartDate := consumptionStartDate,
    consumptionRampMonths := consumptionRampMonths,
    workloadType := r.ProductGroup, opportunityid := r.OppID,
    workloadidentifier := r.RevenueLineID }

/-- One statement executed inside the opportunity transaction. -/
inductive DbOp where
  | deleteLookup
  | insertLookup (row : LookupRow)
  | updateOpportunity (u : OppUpdate)
  | updateOpportunityWorkload (u : WorkloadUpdate)
deriving DecidableEq

/-- Database state touched by the opportunity loader: the staging table's
rows, and the two master tables abstracted as the history of updates applied
against them. -/
structure OppDB where
  lookupOpportunity : List LookupRow := []
  opportunityUpdates : List OppUpdate := []
  workloadUpdates : List WorkloadUpdate := []
deriving DecidableEq

/-- Effect of one committed statement. -/
def applyOp (db : OppDB) : DbOp → OppDB
  | .deleteLookup => { db with lookupOpportunity := [] }
  | .insertLookup r => { db with lookupOpportunity := db.lookupOpportunity ++ [r] }
  | .updateOpportunity u =>
      { db with opportunityUpdates := db.opportunityUpdates ++ [u] }
  | .updateOpportunityWorkload u =>
      { db with workloadUpdates := db.workloadUpdates ++ [u] }

/-- Effect of a committed transaction, statement by statement. -/
def applyOps (db : OppDB) (ops : List DbOp) : OppDB := ops.foldl applyOp db

/-- The statements lines 205–240 execute for one decoded record `r` at loop
counter `c`: the gated staging insert, then the two unconditional updates. -/
def recordOps (c : Nat) (r : OpportunityLookup) : List DbOp :=
  (if oppStatusGate r then [.insertLookup (mkRow c r)] else [])
    ++ [.updateOpportunity (mkOppUpdate r),
        .updateOpportunityWorkload (mkWorkloadUpdate r)]

/-- Statements accumulated by the record loop from counter `c` on. -/
def opsOfRecords : Nat → List OpportunityLookup → List DbOp
  | _, [] => []
  | c, r :: rs => recordOps c r ++ opsOfRecords (c + 1) rs

/-- Staging rows those statements leave in `LookupOpportunity` (the table was
cleared at the start of the transaction): one row per record passing the
Open/Won gate, numbered by the loop counter. -/
def gatedRows : Nat → List OpportunityLookup → List LookupRow
  | _, [] => []
  | c, r :: rs => (if oppStatusGate r then [mkRow c r] else []) ++ gatedRows (c + 1) rs

/-- Run outcome of `processOpportunity`; a decode failure carries the 1-based
ordinal of the failing record, which the source logs in its
`Error decoding person %d` message. -/
inductive OppErr where
  | schemaInvalid
  | openTokErr
  | decodeErr (n : Nat)
  | closeTokErr
deriving DecidableEq

/-- Result of one `processOpportunity` run. -/
structure OppRunResult where
  db : OppDB
  err : Option OppErr
deriving DecidableEq

/-- Embedding of `processOpportunity`: resolve the schema, stream the chunk file inside a
single transaction that first clears the staging table, insert each Open/Won
record and update the master tables for every record, and commit; any schema,
token or decode failure returns before `tx.Commit()`, so the deferred
rollback leaves the database exactly as it was. -/
def processOpportunity (schema : String) (file : String) (db : OppDB) :
    OppRunResult :=
  if schema.length < 1 then ⟨db, some .schemaInvalid⟩
  else
    match parseItemsFile assignOppField {} file with
    | .openTokErr => ⟨db, some .openTokErr⟩
    | .decodeErr n => ⟨db, some (.decodeErr n)⟩
    | .closeTokErr _ => ⟨db, some .closeTokErr⟩
    | .ok recs => ⟨applyOps db (.deleteLookup :: opsOfRecords 1 recs), none⟩

/-! ## Identity loader (`process_identity.go`) -/

/-- The no-match sentinel (`const noMatch = "NOMATCH"`). -/
def noMatch : String := "NOMATCH"

/-- Record `Employee`: one employee record from the corporate feed. -/
structure Employee where
  ID : String := ""
  EmployeeEmailAddress : String := ""
  Role : String := ""
  Status : String := ""
  RecordType : String := ""
  Title : String := ""
  Mgr : String := ""
  Lob : String := ""
  CostCenter : String := ""
  Region : String := ""
  Country : String := ""
  StartDate : String := ""
  EndDate : String := ""
  CreatedOn : String := ""
  CreatedBy : String := ""
  UpdatedOn : String := ""
  UpdatedBy : String := ""
  EmployeeFullName : String := ""
  LdapStatus : String := ""
  Evp : String := ""
  EvpDirect : String := ""
  NeverProcessLdap : String := ""
  DoNotUpdateFromLdap : String := ""
  LockRegion : String := ""
  LeftCompanyOn : String := ""
  Inactive : String := ""
  MgrLevel : String := ""
  State : String := ""
  City : String := ""
  MgrChain : String := ""
  TopMgrDirMinus1 : String := ""
  TopMgrDirMinus2 : String := ""
  TopMgrDirMinus3 : String := ""
  TopMgrDirMinus4 : String := ""
  NumDirects : String := ""
  NumUsers : String := ""
  OldUID : String := ""
  ChainLevel : String := ""
  OracleUID : String := ""
  LobDetail : String := ""
  HierLevel : String := ""
  TopMgrSeq : String := ""
  LobTag : String := ""
  LobTagParent : String := ""
  LobTagRoot : String := ""
deriving DecidableEq

/-- JSON tag → field assignment for `Employee` decoding. -/
def assignEmployeeField (p : Employee) (k v : String) : Employee :=
  if k == "id" then { p with ID := v }
  else if k == "employee_email_address" then { p with EmployeeEmailAddress := v }
  else if k == "role" then { p with Role := v }
  else if k == "status" then { p with Status := v }
  else if k == "record_type" then { p with RecordType := v }
  else if k == "title" then { p with Title := v }
  else if k == "mgr" then { p with Mgr := v }
  else if k == "lob" then { p with Lob := v }
  else if k == "cost_center" then { p with CostCenter := v }
  else if k == "region" then { p with Region := v }
  else if k == "country" then { p with Country := v }
  else if k == "start_date" then { p with StartDate := v }
  else if k == "end_date" then { p with EndDate := v }
  else if k == "created_on" then { p with CreatedOn := v }
  else if k == "created_by" then { p with CreatedBy := v }
  else if k == "updated_on" then { p with UpdatedOn := v }
  else if k == "updated_by" then { p with UpdatedBy := v }
  else if k == "employee_full_name" then { p with EmployeeFullName := v }
  else if k == "ldap_status" then { p with LdapStatus := v }
  else if k == "evp" then { p with Evp := v }
  else if k == "evp_direct" then { p with EvpDirect := v }
  else if k == "never_process_ldap" then { p with NeverProcessLdap := v }
  else if k == "do_not_update_from_ldap" then { p with DoNotUpdateFromLdap := v }
  else if k == "lock_region" then { p with LockRegion := v }
  else if k == "left_company_on" then { p with LeftCompanyOn := v }
  else if k == "inactive" then { p with Inactive := v }
  else if k == "mgr_level" then { p with MgrLevel := v }
  else if k == "state" then { p with State := v }
  else if k == "city" then { p with City := v }
  else if k == "mgr_chain" then { p with MgrChain := v }
  else if k == "top_mgr_dir_minus_1" then { p with TopMgrDirMinus1 := v }
  else if k == "top_mgr_dir_minus_2" then { p with TopMgrDirMinus2 := v }
  else if k == "top_mgr_dir_minus_3" then { p with TopMgrDirMinus3 := v }
  else if k == "top_mgr_dir_minus_4" then { p with TopMgrDirMinus4 := v }
  else if k == "num_directs" then { p with NumDirects := v }
  else if k == "num_users" then { p with NumUsers := v }
  else if k == "olduid" then { p with OldUID := v }
  else if k == "chain_level" then { p with ChainLevel := v }
  else if k == "oracle_uid" then { p with OracleUID := v }
  else if k == "lob_detail" then { p with LobDetail := v }
  else if k == "hier_level" then { p with HierLevel := v }
  else if k == "top_mgr_seq" then { p with TopMgrSeq := v }
  else if k == "lob_tag" then { p with LobTag := v }
  else if k == "lob_tag_parent" then { p with LobTagParent := v }
  else if k == "lob_tag_root" then { p with LobTagRoot := v }
  else p

/-- Per-record adjustments of `processIdentity` (lines 199–211): timestamp
truncation and the root-LOB parent default. -/
def transformEmployee (p : Employee) : Employee :=
  let p := { p with
    StartDate := truncT p.StartDate, EndDate := truncT p.EndDate,
    CreatedOn := truncT p.CreatedOn, UpdatedOn := truncT p.UpdatedOn,
    LeftCompanyOn := truncT p.LeftCompanyOn, Inactive := truncT p.Inactive }
  if p.LobTagParent.length < 1 then { p with LobTagParent := p.LobTag } else p

/-- The load filter of line 214: drop employees who left and the
placeholder accounts without a given name. -/
def employeeLoadFilter (p : Employee) : Bool :=
  !(p.Lob == "X-LEFT ORACLE") && !(p.Lob == "P-LEFT ORACLE")
    && !(p.LobDetail == "/givenname=")

/-- Embedding of `convertEmailToDN`: `first.name@domain` → directory name, upper-cased
local part with dots replaced by underscores and a static suffix. -/
def convertEmailToDN (email : String) : String :=
  if email.length < 1 then ""
  else
    let components := goSplit email '@'
    if components.length < 1 then ""
    else
      let dn := "cn=" ++ mapChars Char.toUpper
        (mapChars (fun c => if c == '.' then '_' else c) (components.headD ""))
      dn ++ ",l=amer,dc=oracle,dc=com"

/-- Embedding of `includeUserInPlatform`: walk the configured top-level manager allow-list
in order, returning the parallel app-mapping tag of the first manager that
occurs as a substring of the employee's manager chain, or the no-match
sentinel.  The source indexes `MgrAppMapping[i]` directly (panicking if the
configured mapping list is shorter than the leads list); the model totalises
the access with `getD`, and the theorems assume the lists well-formed.  The
two lists are the process-wide configuration globals `IdentityMgrLeads` and
`MgrAppMapping`, passed here explicitly. -/
def includeUserInPlatform (leads mapping : List String) (mgrChain : String) :
    String :=
  if mgrChain.length < 1 then noMatch
  else
    match leads.findIdx? (fun manager => goContains mgrChain manager) with
    | some i => mapping.getD i ""
    | none => noMatch

/-- One element of the snapshot's `items` array, exactly the string
concatenation of lines 235–247 (trailing comma included — the run strips the
final character of the accumulated string before closing it). -/
def mkIdentityEntry (p : Employee) (tag : String) : String :=
  let nameSplit := splitAfterN2 p.EmployeeFullName
  "\x7b\"id\":\"" ++ p.EmployeeEmailAddress
    ++ "\",\"sn\":\"" ++ trimRightSpace (nameSplit.getD 1 "")
    ++ "\",\"manager\":\"" ++ convertEmailToDN p.Mgr
    ++ "\",\"mail\":\"" ++ p.EmployeeEmailAddress
    ++ "\",\"givenname\":\"" ++ trimRightSpace (nameSplit.getD 0 "")
    ++ "\",\"displayname\":\"" ++ p.EmployeeFullName
    ++ "\",\"mgr_chain\":\"" ++ p.MgrChain
    ++ "\",\"lob\":\"" ++ p.LobTag
    ++ "\",\"lob_parent\":\"" ++ p.LobTagRoot
    ++ "\",\"num_directs\":" ++ p.NumDirects
    ++ ",\"app_map\":\"" ++ tag
    ++ "\"\x7d,"

/-- Loop state of the identity run: rows inserted into
`CTO_COMMON.ORACLE_EMPLOYEES` (buffered in the transaction) and the snapshot
entries accumulated into `identityString`; `insertedEmps` and `includedEmps`
of the source are the lengths of the two lists. -/
structure IdState where
  rows : List Employee := []
  entries : List String := []
deriving DecidableEq

/-- The body of the identity record loop for one decoded record (lines
199–252): transform, filter, unconditional insert, and the
management-chain-gated snapshot entry. -/
def identityStep (leads mapping : List String) (p : Employee) (st : IdState) :
    IdState :=
  let q := transformEmployee p
  if employeeLoadFilter q then
    let mgrAppMapping := includeUserInPlatform leads mapping q.MgrChain
    { rows := st.rows ++ [q],
      entries :=
        if mgrAppMapping == noMatch then st.entries
        else st.entries ++ [mkIdentityEntry q mgrAppMapping] }
  else st

/-- Database state touched by the identity loader. -/
structure IdentityDB where
  oracleEmployees : List Employee := []
deriving DecidableEq

/-- Run outcome of `processIdentity`. -/
inductive IdErr where
  | openTokErr
  | decodeErr (n : Nat)
  | closeTokErr
deriving DecidableEq

/-- Result of one `processIdentity` run: the database after the transaction,
the snapshot file content written after a successful commit (`none` when the
run aborted before commit), and the two counters the source logs. -/
structure IdentityRunResult where
  db : IdentityDB
  snapshot : Option String
  includedEmps : Nat
  insertedEmps : Nat
  err : Option IdErr
deriving DecidableEq

/-- Embedding of `processIdentity`: stream the chunk file inside one transaction that
first clears `ORACLE_EMPLOYEES`; on commit, strip the final character of the
accumulated `identityString` (meant to drop a trailing comma), close it with
`]\x7d`, and write it as the identity snapshot. -/
def processIdentity (leads mapping : List String) (file : String)
    (db : IdentityDB) : IdentityRunResult :=
  match parseItemsFile assignEmployeeField {} file with
  | .openTokErr => ⟨db, none, 0, 0, some .openTokErr⟩
  | .decodeErr n => ⟨db, none, 0, 0, some (.decodeErr n)⟩
  | .closeTokErr _ => ⟨db, none, 0, 0, some .closeTokErr⟩
  | .ok recs =>
    let st := recs.foldl (fun st p => identityStep leads mapping p st) {}
    let identityString := "\x7b\"items\":[" ++ String.join st.entries
    let content := dropLastStr identityString ++ "]\x7d"
    ⟨{ oracleEmployees := st.rows }, some content, st.entries.length,
      st.rows.length, none⟩

/-! ## Chunk assembler (`reference_data.go`) -/

/-- Position constants of the handler. -/
def first : String := "first"

/-- Position constant `middle`. -/
def middle : String := "middle"

/-- Position constant `last`. -/
def last : String := "last"

/-- Position constant `reprocess`. -/
def reprocess : String := "reprocess"

/-- Data-type constant `identity`. -/
def identity : String := "identity"

/-- Data-type constant `opportunity`. -/
def opportunity : String := "opportunity"

/-- Data-type constant `account`. -/
def account : String := "account"

/-- The service's working directory: file name → content.  `fsPut` models
`ioutil.WriteFile` (create-or-truncate); lookups take the most recent entry. -/
abbrev FS : Type := List (String × String)

/-- Read a file. -/
def fsGet (fs : FS) (name : String) : Option String :=
  (List.find? (fun p => p.1 == name) fs).map (fun p => p.2)

/-- Create or truncate a file. -/
def fsPut (fs : FS) (name content : String) : FS := (name, content) :: fs

/-- The committed HTTP status and accumulated body of a `ResponseWriter`:
Go commits the status at the first `WriteHeader` or, implicitly as `200`, at
the first body write; later `WriteHeader` calls are superfluous no-ops. -/
structure HttpW where
  status : Option Nat := none
  body : String := ""
deriving DecidableEq

/-- A body write (`fmt.Fprintf(w, ...)`): commits `200` if nothing committed
yet. -/
def hWrite (w : HttpW) (s : String) : HttpW :=
  { status := some (w.status.getD 200), body := w.body ++ s }

/-- Model of `w.WriteHeader(c)`: commits `c` only if nothing committed yet. -/
def hHeader (w : HttpW) (c : Nat) : HttpW :=
  { w with status := some (w.status.getD c) }

/-- Structured view of the handler's `logOutput` lines (the logging sink
itself is repository code not present in the sources; the spec describes it
as a leveled sink of component tag and message, modelled here as events). -/
inductive RefLog where
  | invalidPosition (p : String)
  | invalidType (t : String)
  | startCollect (t : String)
  | appendError (t pos : String)
  | doneCollect (t : String)
  | handoff (t : String)
deriving DecidableEq

/-- Result of one `postReferenceData` request: the working directory, the
response, the log, and the data types handed off to background loaders. -/
structure HandlerOut where
  fs : FS
  w : HttpW
  log : List RefLog
  spawned : List String
deriving DecidableEq

/-- Embedding of `postReferenceDataHandler`: validate `position` and `type`; on `first`
create-or-truncate `<type>.json` with the body; on `middle`/`last` append to
it — when the file is missing, the `os.OpenFile` error branch and then the
`file.Write` on the nil handle each print `Processing Error` to the response
*before* calling `WriteHeader(500)`, and neither branch returns; on `last` or
`reprocess` the loader for the type is spawned regardless. -/
def postReferenceDataHandler (position dataType reqBody : String) (fs : FS) :
    HandlerOut :=
  let w0 : HttpW := {}
  if !(position == first || position == middle || position == last
        || position == reprocess) then
    ⟨fs, hWrite (hHeader w0 500) "Missing or invalid position query string parameter",
      [.invalidPosition position], []⟩
  else if !(dataType == identity || dataType == opportunity || dataType == account) then
    ⟨fs, hWrite (hHeader w0 500) "Missing or invalid type query string parameter",
      [.invalidType dataType], []⟩
  else
    let filename := dataType ++ ".json"
    if position == first then
      ⟨fsPut fs filename reqBody, w0, [.startCollect dataType], []⟩
    else
      let afterAppend : FS × HttpW × List RefLog :=
        if position == middle || position == last then
          match fsGet fs filename with
          | some old => (fsPut fs filename (old ++ reqBody), w0, [])
          | none =>
            let w1 := hHeader (hWrite w0 "Processing Error") 500
            let w2 := hHeader (hWrite w1 "Processing Error") 500
            (fs, w2, [.appendError dataType position, .appendError dataType position])
        else (fs, w0, [])
      match afterAppend with
      | (fs1, w1, log1) =>
        if position == last || position == reprocess then
          ⟨fs1, w1, log1 ++ [.doneCollect dataType, .handoff dataType], [dataType]⟩
        else ⟨fs1, w1, log1, []⟩

/-! ## Shared lemmas -/

/-- Reading back a freshly written file. -/
theorem fsGet_fsPut (fs : FS) (name content : String) :
    fsGet (fsPut fs name content) name = some content := by
  simp [fsGet, fsPut, List.find?]

/-- A committed transaction splits into its statement blocks. -/
theorem applyOps_append (db : OppDB) (l1 l2 : List DbOp) :
    applyOps db (l1 ++ l2) = applyOps (applyOps db l1) l2 := by
  simp [applyOps, List.foldl_append]

/-- Effect of the per-record statements of a whole record list: the staging
table gains exactly the gated rows, and both master tables receive one update
per record. -/
theorem applyOps_opsOfRecords :
    ∀ (recs : List OpportunityLookup) (c : Nat) (db : OppDB),
      applyOps db (opsOfRecords c recs) =
        { lookupOpportunity := db.lookupOpportunity ++ gatedRows c recs,
          opportunityUpdates := db.opportunityUpdates ++ recs.map mkOppUpdate,
          workloadUpdates := db.workloadUpdates ++ recs.map mkWorkloadUpdate }
  | [], c, db => by cases db; simp [opsOfRecords, gatedRows, applyOps]
  | r :: rs, c, db => by
    have hsplit : applyOps db (recordOps c r ++ opsOfRecords (c + 1) rs)
        = applyOps (applyOps db (recordOps c r)) (opsOfRecords (c + 1) rs) :=
      applyOps_append db _ _
    have hrec : applyOps db (recordOps c r) =
        { lookupOpportunity :=
            db.lookupOpportunity ++ (if oppStatusGate r then [mkRow c r] else []),
          opportunityUpdates := db.opportunityUpdates ++ [mkOppUpdate r],
          workloadUpdates := db.workloadUpdates ++ [mkWorkloadUpdate r] } := by
      by_cases hg : oppStatusGate r <;>
        simp [recordOps, hg, applyOps, applyOp]
    simp only [opsOfRecords, gatedRows, List.map_cons, hsplit, hrec,
      applyOps_opsOfRecords rs (c + 1)]
    by_cases hg : oppStatusGate r <;> simp [hg, List.append_assoc]

/-- Every staging row admitted by the gate carries an `Open` or `Won`
status (the row's status column is bound to the record's status). -/
theorem gatedRows_status :
    ∀ (c : Nat) (recs : List OpportunityLookup),
      (gatedRows c recs).all
        (fun row => row.opportunitystatus == "Open" || row.opportunitystatus == "Won") = true
  | _, [] => rfl
  | c, r :: rs => by
    by_cases hg : oppStatusGate r <;>
      simp [gatedRows, hg, gatedRows_status (c + 1) rs]
    · have h' : r.OppStatus = "Open" ∨ r.OppStatus = "Won" := by
        simpa [oppStatusGate] using hg
      exact h'

/-- The gate admits exactly the `Open`/`Won` records: one staging row per
record passing the status filter. -/
theorem gatedRows_length :
    ∀ (c : Nat) (recs : List OpportunityLookup),
      (gatedRows c recs).length = (recs.filter oppStatusGate).length
  | _, [] => rfl
  | c, r :: rs => by
    by_cases hg : oppStatusGate r <;>
      simp [gatedRows, List.filter, hg, gatedRows_length (c + 1) rs]

/-- Lemma: `findIdx?` succeeds exactly when some element satisfies the test. -/
theorem findIdx?_isSome_iff {α : Type} (p : α → Bool) (l : List α) :
    (l.findIdx? p).isSome = true ↔ ∃ x ∈ l, p x = true := by
  rw [List.findIdx?_isSome]
  exact List.any_eq_true

/-! ## Claim theorems -/

/-- C2: loader atomicity on decode error — whenever a `processOpportunity`
run ends with a decode error (whose payload is the failing record's 1-based
ordinal, the `%d` of the source's `Error decoding person %d` log line), the
run aborted before `tx.Commit()` and the deferred rollback leaves the whole
database — the staging table in particular — exactly as it was before the
run: `count_after = count_before` and no partial rows. -/
theorem processOpportunity_decode_error_atomic (schema file : String)
    (db : OppDB) (n : Nat)
    (h : (processOpportunity schema file db).err = some (.decodeErr n)) :
    (processOpportunity schema file db).db = db := by
  unfold processOpportunity at h ⊢
  by_cases hs : schema.length < 1
  · rw [if_pos hs]
  · rw [if_neg hs] at h ⊢
    cases hp : parseItemsFile assignOppField ({} : OpportunityLookup) file
    · rfl
    · rfl
    · rfl
    · rw [hp] at h
      exact Option.noConfusion h

/-- A three-record opportunity file whose second record is malformed. -/
def c2File : String :=
  "\x7b\"items\": [\x7b\"opportunity_id\":\"A\"\x7d,\x7bbad\x7d,\x7b\"opportunity_id\":\"C\"\x7d]\x7d"

/-- A non-empty staging table from a previous run. -/
def c2Db : OppDB := { lookupOpportunity := [{ id := 7, opportunityid := "OLD" }] }

/-- C2 witness: on a concrete file whose record 2 of 3 fails to decode, the
run reports the ordinal 2 and the database is unchanged, keeping the
previous run's row. -/
theorem processOpportunity_decode_error_atomic_witness :
    (processOpportunity "S" c2File c2Db).err = some (.decodeErr 2)
    ∧ (processOpportunity "S" c2File c2Db).db = c2Db :=
  ⟨by decide, processOpportunity_decode_error_atomic "S" c2File c2Db 2 (by decide)⟩

/-- C4: the opportunity status gate with unconditional master updates — in a
committed run that decoded records `recs`, the staging table holds exactly
the rows of the records whose status passed the `Open`/`Won` gate (every
staged row carries such a status, and the row count equals the count of
gate-passing records), while the `Opportunity` and `OpportunityWorkload`
master tables each receive exactly one update per decoded record, regardless
of status. -/
theorem processOpportunity_open_won_gate (schema file : String) (db : OppDB)
    (recs : List OpportunityLookup)
    (hs : 1 ≤ schema.length)
    (hp : parseItemsFile assignOppField ({} : OpportunityLookup) file = .ok recs) :
    (processOpportunity schema file db).err = none
    ∧ (processOpportunity schema file db).db.lookupOpportunity = gatedRows 1 recs
    ∧ (processOpportunity schema file db).db.opportunityUpdates
        = db.opportunityUpdates ++ recs.map mkOppUpdate
    ∧ (processOpportunity schema file db).db.workloadUpdates
        = db.workloadUpdates ++ recs.map mkWorkloadUpdate
    ∧ (gatedRows 1 recs).all
        (fun row => row.opportunitystatus == "Open" || row.opportunitystatus == "Won") = true
    ∧ (gatedRows 1 recs).length = (recs.filter oppStatusGate).length := by
  have hns : ¬ schema.length < 1 := Nat.not_lt.mpr hs
  unfold processOpportunity
  rw [if_neg hns, hp]
  dsimp only
  have hdb : applyOps db (DbOp.deleteLookup :: opsOfRecords 1 recs) =
      { lookupOpportunity := gatedRows 1 recs,
        opportunityUpdates := db.opportunityUpdates ++ recs.map mkOppUpdate,
        workloadUpdates := db.workloadUpdates ++ recs.map mkWorkloadUpdate } := by
    show applyOps (applyOp db .deleteLookup) (opsOfRecords 1 recs) = _
    rw [applyOps_opsOfRecords]
    rfl
  exact ⟨rfl, by rw [hdb], by rw [hdb], by rw [hdb],
    gatedRows_status 1 recs, gatedRows_length 1 recs⟩

/-- A two-record opportunity file: `O1` is `Open`, `O2` is `Lost`. -/
def c4File : String :=
  "\x7b\"items\": [\x7b\"opportunity_id\":\"O1\",\"opportunity_status\":\"Open\"\x7d,\x7b\"opportunity_id\":\"O2\",\"opportunity_status\":\"Lost\"\x7d]\x7d"

/-- The two records `c4File` decodes to. -/
def c4Recs : List OpportunityLookup :=
  [{ OppID := "O1", OppStatus := "Open" }, { OppID := "O2", OppStatus := "Lost" }]

/-- C4 witness: on a concrete file with one `Open` and one `Lost` record, the
committed staging table is exactly the gated rows (here: only `O1`), and
both master tables receive updates for both records. -/
theorem processOpportunity_open_won_gate_witness :
    (processOpportunity "S" c4File c2Db).err = none
    ∧ (processOpportunity "S" c4File c2Db).db.lookupOpportunity = gatedRows 1 c4Recs
    ∧ (processOpportunity "S" c4File c2Db).db.opportunityUpdates
        = c2Db.opportunityUpdates ++ c4Recs.map mkOppUpdate
    ∧ (processOpportunity "S" c4File c2Db).db.workloadUpdates
        = c2Db.workloadUpdates ++ c4Recs.map mkWorkloadUpdate
    ∧ (gatedRows 1 c4Recs).all
        (fun row => row.opportunitystatus == "Open" || row.opportunitystatus == "Won") = true
    ∧ (gatedRows 1 c4Recs).length = (c4Recs.filter oppStatusGate).length :=
  processOpportunity_open_won_gate "S" c4File c2Db c4Recs (by decide) (by decide)

/-- Concrete evaluation: the in-thousands string `"150"` parses to `150`. -/
theorem goParseFloatEff_150 : goParseFloatEff "150" = 150 := by
  have h : parseGoFloat "150" =
      some (((1 : Int) : ℚ) *
        ((digitsVal ['1', '5', '0'] : ℚ) + (digitsVal [] : ℚ) / ((10 : ℚ) ^ (0 : Nat)))) := rfl
  have hd : digitsVal ['1', '5', '0'] = 150 := by decide
  have hz : digitsVal [] = 0 := by decide
  rw [goParseFloatEff, h, hd, hz]
  norm_num

/-- Concrete evaluation: the unparseable string `"abc"` degrades to `0`. -/
theorem goParseFloatEff_abc : goParseFloatEff "abc" = 0 := by
  have h : parseGoFloat "abc" = none := rfl
  rw [goParseFloatEff, h]
  rfl

/-- Concrete evaluation: the absent numeric string degrades to `0`. -/
theorem goParseFloatEff_empty : goParseFloatEff "" = 0 := by
  have h : parseGoFloat "" = none := rfl
  rw [goParseFloatEff, h]
  rfl

/-- C6: numeric scaling with silent degradation — a record whose `rev_tcv_k`
string is `"150"` is staged with `revenuetcvk = 150000` (the `oppty_amount_k`
column scales by the same ×1000), a record whose `rev_tcv_k` string is
`"abc"` is staged with `revenuetcvk = 0`, and such an unparseable record (in
`Open` state) is still inserted rather than aborted: its insert statement is
among the record's operations. -/
theorem opportunity_numeric_scaling (c : Nat) (o : OpportunityLookup) :
    (mkRow c { o with RevenueTCVK := "150" }).revenuetcvk = 150000
    ∧ (mkRow c { o with RevenueTCVK := "abc" }).revenuetcvk = 0
    ∧ (mkRow c { o with OpportunityValue := "150" }).opportunityvalue = 150000
    ∧ DbOp.insertLookup (mkRow c { o with RevenueTCVK := "abc", OppStatus := "Open" })
        ∈ recordOps c { o with RevenueTCVK := "abc", OppStatus := "Open" } := by
  refine ⟨?_, ?_, ?_, ?_⟩
  · show goParseFloatEff "150" * 1000 = 150000
    rw [goParseFloatEff_150]; norm_num
  · show goParseFloatEff "abc" * 1000 = 0
    rw [goParseFloatEff_abc]; norm_num
  · show goParseFloatEff "150" * 1000 = 150000
    rw [goParseFloatEff_150]; norm_num
  · simp [recordOps, oppStatusGate]

/-- C7: SE-list tokenization — the documented example rejoins trimmed
`name-role` pairs with commas; the literal `"null"` and the empty string map
to the empty string; an entry without a dash, or with more than one dash, is
dropped without affecting the rest of the list. -/
theorem tokenizeSeList_examples :
    tokenizeSeList "a@x.com - ECA, b@y.com - Hub SE" = "a@x.com-ECA,b@y.com-Hub SE"
    ∧ tokenizeSeList "null" = ""
    ∧ tokenizeSeList "" = ""
    ∧ tokenizeSeList "a@x.com - ECA, bogus, b@y.com - Hub SE"
        = "a@x.com-ECA,b@y.com-Hub SE"
    ∧ tokenizeSeList "a@x.com - ECA, x - y - z" = "a@x.com-ECA" := by
  refine ⟨by decide, by decide, by decide, by decide, by decide⟩

/-- The collapse is exactly its spec-level description: first match against
the priority list, `"NAC HQ"` to the PAYGO sentinel, `""` otherwise. -/
theorem collapseBusinessSegment_eq_spec (s : String) :
    collapseBusinessSegment s = collapseBusinessSegmentSpec s := by
  simp only [collapseBusinessSegment, collapseBusinessSegmentSpec, segmentPriority,
    List.find?]
  cases s == "NAC HQ" <;>
    cases goContains s "Key Accounts" <;>
    cases goContains s "Enterprise" <;>
    cases goContains s "Midmarket" <;>
    cases goContains s "SMB" <;>
    cases goContains s "ISV" <;>
    cases goContains s "Public Sector" <;>
    simp

/-- No staging row produced by the account loop carries the PAYGO sentinel:
the gate filters such records out before insertion. -/
theorem accountRowsOf_no_paygo (c : Nat) (recs : List AccountLookup) :
    (accountRowsOf c recs).all (fun row => !(row.businessSegment == paygo)) = true := by
  induction recs generalizing c with
  | nil => rfl
  | cons a rest ih =>
    by_cases hg : accountGate (transformAccount a) = true <;>
      simp [accountRowsOf, hg, ih]
    · have h' : ¬ (transformAccount a).BusinessSegment = paygo := by
        simpa [accountGate] using hg
      simpa [mkAccountRow] using h'

/-- C3 counterexample: the collapse of the unrecognized input `"Foo Bar"` is
the empty string, not the claimed default `"SMB"` (the source comment, too,
says "If nothing matches our pick list then return an empty string"). -/
theorem collapseBusinessSegment_smb_default_counterexample :
    collapseBusinessSegment "Foo Bar" = "" ∧ collapseBusinessSegment "Foo Bar" ≠ "SMB" :=
  ⟨by decide, by decide⟩

/-- C3 (amended): the collapse returns the first matching category in the
priority order Key Account > Enterprise > Mid-Market > SMB > ISV > Public
Sector by case-sensitive substring match; the exact input `"NAC HQ"` maps to
the PAYGO sentinel and such accounts are excluded from the load;
`"NATD ISV:NATD Public Sector"` collapses to `"ISV"`; an unrecognized input
such as `"Foo Bar"` returns the empty string (not `"SMB"`). -/
theorem collapseBusinessSegment_amended :
    (∀ s, collapseBusinessSegment s = collapseBusinessSegmentSpec s)
    ∧ collapseBusinessSegment "NAC HQ" = paygo
    ∧ collapseBusinessSegment "NATD ISV:NATD Public Sector" = "ISV"
    ∧ collapseBusinessSegment "Foo Bar" = ""
    ∧ (∀ (a : AccountLookup),
        accountGate (transformAccount a)
          = !(collapseBusinessSegment a.BusinessSegment == paygo))
    ∧ (∀ (c : Nat) (recs : List AccountLookup),
        (accountRowsOf c recs).all (fun row => !(row.businessSegment == paygo)) = true) :=
  ⟨collapseBusinessSegment_eq_spec, by decide, by decide, by decide,
    fun _ => rfl, accountRowsOf_no_paygo⟩

/-- C8: management-chain inclusion — for an employee record passing the load
filter, the record is always inserted into the master employee table; it is
additionally written to the identity snapshot, annotated with the app-mapping
tag at the matching allow-list entry's position, exactly when some allow-list
entry occurs as a substring of the record's manager chain (the first such
entry in configured order; the characterization of the match is part (3)).
The configured tag lists are assumed well-formed: the matched tag is not
itself the `NOMATCH` sentinel. -/
theorem identity_mgr_chain_inclusion (leads mapping : List String)
    (p : Employee) (st : IdState)
    (hfilter : employeeLoadFilter (transformEmployee p) = true) :
    (∀ i, leads.findIdx?
        (fun manager => goContains (transformEmployee p).MgrChain manager) = some i →
      0 < (transformEmployee p).MgrChain.length →
      mapping.getD i "" ≠ noMatch →
      identityStep leads mapping p st =
        { rows := st.rows ++ [transformEmployee p],
          entries := st.entries
            ++ [mkIdentityEntry (transformEmployee p) (mapping.getD i "")] })
    ∧ (leads.findIdx?
        (fun manager => goContains (transformEmployee p).MgrChain manager) = none →
      identityStep leads mapping p st =
        { rows := st.rows ++ [transformEmployee p], entries := st.entries })
    ∧ ((leads.findIdx?
        (fun manager => goContains (transformEmployee p).MgrChain manager)).isSome = true
      ↔ ∃ m ∈ leads, goContains (transformEmployee p).MgrChain m = true) := by
  refine ⟨?_, ?_, findIdx?_isSome_iff _ _⟩
  · intro i hidx hlen htag
    have hnl : ¬ (transformEmployee p).MgrChain.length < 1 := by omega
    have htagD : ¬ mapping[i]?.getD "" = noMatch := by
      simpa [List.getD] using htag
    simp [identityStep, hfilter, includeUserInPlatform, hnl, hidx, htagD, List.getD]
  · intro hidx
    by_cases hlen : (transformEmployee p).MgrChain.length < 1
    · simp [identityStep, hfilter, includeUserInPlatform, hlen]
    · simp [identityStep, hfilter, includeUserInPlatform, hlen, hidx]

/-- The allow-list of the spec's inclusion example. -/
def c8Leads : List String := ["mgr1@x.com"]

/-- The parallel app-mapping tags. -/
def c8Mapping : List String := ["ECAL"]

/-- An employee whose manager chain contains the configured lead. -/
def c8Emp : Employee :=
  { EmployeeEmailAddress := "a@x.com", EmployeeFullName := "Jane Doe",
    Mgr := "mgr1@x.com", MgrChain := "a@x.com // mgr1@x.com // ceo@x.com",
    NumDirects := "0" }

/-- C8 witness: the spec's example — allow-list `["mgr1@x.com"]` and chain
`"a@x.com // mgr1@x.com // ceo@x.com"` — is inserted and included in the
snapshot with the tag at the matching position. -/
theorem identity_mgr_chain_inclusion_witness :
    identityStep c8Leads c8Mapping c8Emp {} =
      { rows := [transformEmployee c8Emp],
        entries := [mkIdentityEntry (transformEmployee c8Emp) (c8Mapping.getD 0 "")] } :=
  (identity_mgr_chain_inclusion c8Leads c8Mapping c8Emp {} (by decide)).1 0
    (by decide) (by decide) (by decide)

/-- C9: when an identity run commits with zero employees matching the
management-chain allow-list, the accumulated `identityString` is still the
bare `\x7b"items":[` prefix, so stripping its final character before closing
removes the array's opening bracket: the snapshot file is written with
content exactly `\x7b"items":]\x7d`, which is not of the documented
`\x7b"items":[...]\x7d` shape (and is not valid JSON). -/
theorem processIdentity_empty_snapshot (leads mapping : List String)
    (file : String) (db : IdentityDB) (c : String)
    (h1 : (processIdentity leads mapping file db).snapshot = some c)
    (h2 : (processIdentity leads mapping file db).includedEmps = 0) :
    c = "\x7b\"items\":]\x7d" := by
  unfold processIdentity at h1 h2
  cases hp : parseItemsFile assignEmployeeField ({} : Employee) file
  · rw [hp] at h1
    exact Option.noConfusion h1
  · rw [hp] at h1
    exact Option.noConfusion h1
  · rw [hp] at h1
    exact Option.noConfusion h1
  · rw [hp] at h1 h2
    dsimp only at h1 h2
    have hent : (List.foldl (fun st p => identityStep leads mapping p st)
        ({} : IdState) _).entries = [] := List.length_eq_zero.mp h2
    rw [hent] at h1
    have hc : dropLastStr ("\x7b\"items\":[" ++ String.join []) ++ "]\x7d"
        = "\x7b\"items\":]\x7d" := by decide
    rw [hc] at h1
    injection h1 with h
    exact h.symm

/-- An identity chunk file whose `items` array is empty. -/
def c9File : String := "\x7b\"items\": []\x7d"

/-- C9 witness: a committed identity run over an empty `items` array includes
zero employees and writes exactly the bracketless `\x7b"items":]\x7d`
snapshot. -/
theorem processIdentity_empty_snapshot_witness :
    (processIdentity c8Leads c8Mapping c9File {}).snapshot = some "\x7b\"items\":]\x7d"
    ∧ (processIdentity c8Leads c8Mapping c9File {}).includedEmps = 0
    ∧ ("\x7b\"items\":]\x7d" : String) = "\x7b\"items\":]\x7d" :=
  ⟨by decide, by decide,
    processIdentity_empty_snapshot c8Leads c8Mapping c9File {} "\x7b\"items\":]\x7d"
      (by decide) (by decide)⟩

/-- C5: chunk reassembly — posting `first` with bytes `B1`, `middle` with
`B2`, then `last` with `B3` for the same valid type leaves `<type>.json`
byte-equal to `B1 ++ B2 ++ B3`; a subsequent `first` with `B4` replaces the
file's content entirely with `B4`. -/
theorem chunk_reassembly (t B1 B2 B3 B4 : String) (fs : FS)
    (ht : t = identity ∨ t = opportunity ∨ t = account) :
    fsGet (postReferenceDataHandler last t B3
        (postReferenceDataHandler middle t B2
          (postReferenceDataHandler first t B1 fs).fs).fs).fs (t ++ ".json")
      = some (B1 ++ B2 ++ B3)
    ∧ fsGet (postReferenceDataHandler first t B4
        (postReferenceDataHandler last t B3
          (postReferenceDataHandler middle t B2
            (postReferenceDataHandler first t B1 fs).fs).fs).fs).fs (t ++ ".json")
      = some B4 := by
  rcases ht with h | h | h <;> subst h <;>
    constructor <;>
    simp [postReferenceDataHandler, first, middle, last, reprocess, identity,
      opportunity, account, fsGet, fsPut, List.find?]

/-- C5 witness: a concrete three-chunk upload for type `opportunity` followed
by a fresh `first`. -/
theorem chunk_reassembly_witness :
    fsGet (postReferenceDataHandler last opportunity "EF"
        (postReferenceDataHandler middle opportunity "CD"
          (postReferenceDataHandler first opportunity "AB" []).fs).fs).fs
        (opportunity ++ ".json")
      = some ("AB" ++ "CD" ++ "EF")
    ∧ fsGet (postReferenceDataHandler first opportunity "GH"
        (postReferenceDataHandler last opportunity "EF"
          (postReferenceDataHandler middle opportunity "CD"
            (postReferenceDataHandler first opportunity "AB" []).fs).fs).fs).fs
        (opportunity ++ ".json")
      = some "GH" :=
  chunk_reassembly opportunity "AB" "CD" "EF" "GH" [] (Or.inr (Or.inl rfl))

/-- C10 counterexample: with no `opportunity.json` on disk, a
`position=last` request whose append fails produces a committed response
status of `200`, not `500` — the handler writes the `Processing Error` body
(twice) before its `WriteHeader(500)` calls, so the 500 never takes effect —
while the loader is still spawned. -/
theorem postReferenceData_append_error_counterexample :
    (postReferenceDataHandler last opportunity "xyz" []).w.status = some 200
    ∧ (postReferenceDataHandler last opportunity "xyz" []).w.status ≠ some 500
    ∧ (postReferenceDataHandler last opportunity "xyz" []).spawned = [opportunity]
    ∧ (postReferenceDataHandler last opportunity "xyz" []).w.body
        = "Processing ErrorProcessing Error" :=
  ⟨by decide, by decide, by decide, by decide⟩

/-- C10 (amended): for a `position=last` request with a valid type whose
chunk file is missing, the handler writes the `Processing Error` body and
calls `WriteHeader(500)` — but the body write precedes it, so the committed
status is `200` — and it does not return early: the file system is left
untouched, completion is logged, and the background loader for the type is
spawned regardless; the I/O error never suppresses the load trigger. -/
theorem postReferenceData_append_error_amended (t reqBody : String) (fs : FS)
    (ht : t = identity ∨ t = opportunity ∨ t = account)
    (hmiss : fsGet fs (t ++ ".json") = none) :
    (postReferenceDataHandler last t reqBody fs).w.status = some 200
    ∧ (postReferenceDataHandler last t reqBody fs).w.body
        = "Processing ErrorProcessing Error"
    ∧ (postReferenceDataHandler last t reqBody fs).spawned = [t]
    ∧ (postReferenceDataHandler last t reqBody fs).fs = fs
    ∧ (postReferenceDataHandler last t reqBody fs).log
        = [.appendError t last, .appendError t last, .doneCollect t, .handoff t] := by
  rcases ht with h | h | h <;> subst h <;>
    simp [identity, opportunity, account] at hmiss <;>
    simp [postReferenceDataHandler, first, middle, last, reprocess, identity,
      opportunity, account, hmiss, hWrite, hHeader]

/-- C10 witness: the concrete missing-file `last` request for type
`opportunity`. -/
theorem postReferenceData_append_error_amended_witness :
    (postReferenceDataHandler last opportunity "xyz" []).w.status = some 200
    ∧ (postReferenceDataHandler last opportunity "xyz" []).w.body
        = "Processing ErrorProcessing Error"
    ∧ (postReferenceDataHandler last opportunity "xyz" []).spawned = [opportunity]
    ∧ (postReferenceDataHandler last opportunity "xyz" []).fs = []
    ∧ (postReferenceDataHandler last opportunity "xyz" []).log
        = [.appendError opportunity last, .appendError opportunity last,
           .doneCollect opportunity, .handoff opportunity] :=
  postReferenceData_append_error_amended opportunity "xyz" []
    (Or.inr (Or.inl rfl)) (by decide)

/-- The claim's exact first chunk: the 9-byte prefix `\x7b"items":` directly
followed by the array bracket. -/
def c1Chunk1NoSpace : String :=
  "\x7b\"items\":[\x7b\"opportunity_id\":\"O1\",\"opportunity_status\":\"Open\""

/-- The closing chunk posted with `position=last`. -/
def c1Chunk2 : String := "\x7d]\x7d"

/-- The first chunk with one byte of whitespace after the colon, putting the
array bracket at byte offset 10 where the loader's fixed seek expects it. -/
def c1Chunk1 : String :=
  "\x7b\"items\": [\x7b\"opportunity_id\":\"O1\",\"opportunity_status\":\"Open\""

/-- The single record the amended scenario decodes. -/
def c1Rec : OpportunityLookup := { OppID := "O1", OppStatus := "Open" }

/-- C1 counterexample: with the claim's exact bytes, `\x7b"items":` is 9
bytes, so the loader's 10-byte seek consumes the array's `[` as well; the
`Token` call then eats the first record's `\x7b`, the first `Decode` fails,
and the aborted run inserts nothing — the staging table afterwards holds 0
rows, not 1 (here starting from an empty table). -/
theorem opportunity_end_to_end_counterexample :
    fsGet (postReferenceDataHandler last opportunity c1Chunk2
        (postReferenceDataHandler first opportunity c1Chunk1NoSpace []).fs).fs
        "opportunity.json"
      = some (c1Chunk1NoSpace ++ c1Chunk2)
    ∧ (postReferenceDataHandler last opportunity c1Chunk2
        (postReferenceDataHandler first opportunity c1Chunk1NoSpace []).fs).spawned
      = [opportunity]
    ∧ (processOpportunity "S" (c1Chunk1NoSpace ++ c1Chunk2) {}).err
      = some (.decodeErr 1)
    ∧ (processOpportunity "S" (c1Chunk1NoSpace ++ c1Chunk2) {}).db.lookupOpportunity.length
      = 0 :=
  ⟨by decide, by decide, by decide, by decide⟩

/-- C1 (amended): the end-to-end ingestion scenario holds when the posted
bytes carry one byte of whitespace between `"items":` and `[` (so the
10-byte seek lands on the array token): posting `first` with that chunk and
`last` with the closing bytes assembles `opportunity.json` as their
concatenation and spawns the opportunity loader; the loader decodes exactly
one record, inserts exactly one staging row for `O1` (status `Open`),
executes one master `Opportunity` update and one `OpportunityWorkload`
update for `O1`, and commits, so the staging table afterwards holds exactly
1 row — whatever its prior contents. -/
theorem opportunity_end_to_end_amended (db : OppDB) :
    fsGet (postReferenceDataHandler last opportunity c1Chunk2
        (postReferenceDataHandler first opportunity c1Chunk1 []).fs).fs
        "opportunity.json"
      = some (c1Chunk1 ++ c1Chunk2)
    ∧ (postReferenceDataHandler last opportunity c1Chunk2
        (postReferenceDataHandler first opportunity c1Chunk1 []).fs).spawned
      = [opportunity]
    ∧ (processOpportunity "S" (c1Chunk1 ++ c1Chunk2) db).err = none
    ∧ (∃ row, (processOpportunity "S" (c1Chunk1 ++ c1Chunk2) db).db.lookupOpportunity
        = [row] ∧ row.opportunityid = "O1" ∧ row.opportunitystatus = "Open")
    ∧ (∃ u, (processOpportunity "S" (c1Chunk1 ++ c1Chunk2) db).db.opportunityUpdates
        = db.opportunityUpdates ++ [u] ∧ u.opportunityid = "O1"
        ∧ u.opportunityStatus = "Open")
    ∧ (∃ u, (processOpportunity "S" (c1Chunk1 ++ c1Chunk2) db).db.workloadUpdates
        = db.workloadUpdates ++ [u] ∧ u.opportunityid = "O1")
    ∧ (processOpportunity "S" (c1Chunk1 ++ c1Chunk2) db).db.lookupOpportunity.length
      = 1 := by
  have hp : parseItemsFile assignOppField ({} : OpportunityLookup)
      (c1Chunk1 ++ c1Chunk2) = .ok [c1Rec] := by decide
  have hns : ¬ ("S" : String).length < 1 := by decide
  have hdb : (processOpportunity "S" (c1Chunk1 ++ c1Chunk2) db).db
      = { lookupOpportunity := gatedRows 1 [c1Rec],
          opportunityUpdates := db.opportunityUpdates ++ [c1Rec].map mkOppUpdate,
          workloadUpdates := db.workloadUpdates ++ [c1Rec].map mkWorkloadUpdate } := by
    unfold processOpportunity
    rw [if_neg hns, hp]
    dsimp only
    show applyOps (applyOp db .deleteLookup) (opsOfRecords 1 [c1Rec]) = _
    rw [applyOps_opsOfRecords]
    rfl
  have herr : (processOpportunity "S" (c1Chunk1 ++ c1Chunk2) db).err = none := by
    unfold processOpportunity
    rw [if_neg hns, hp]
  have hgate : gatedRows 1 [c1Rec] = [mkRow 1 c1Rec] := rfl
  refine ⟨by decide, by decide, herr, ?_, ?_, ?_, ?_⟩
  · exact ⟨mkRow 1 c1Rec, by rw [hdb, hgate], rfl, rfl⟩
  · exact ⟨mkOppUpdate c1Rec, by rw [hdb]; rfl, rfl, rfl⟩
  · exact ⟨mkWorkloadUpdate c1Rec, by rw [hdb]; rfl, rfl⟩
  · rw [hdb, hgate]
    rfl
